import Mathlib

/-!
A Lean 4 shallow embedding of the request-handling core of the
`react_frontend_template` repository, together with theorems checking the
repository's natural-language specification against it.

The embedding covers:
* the environment-configuration loader (`getEnvVar`, `parseBoolean`,
  `parseNumber`, the gated optional sub-groups of `config`, `validateConfig`);
* the development proxy's `onError` handler;
* the fetch-based HTTP client (`getApiConfig`, header merging with the stored
  auth token, and the `request` lifecycle with its timeout timer and error
  classification).

JavaScript-specific behaviour is modelled explicitly: an environment variable
is a `String → Option String` map; JS truthiness of a string value (`!value`)
is `jsTruthy`; a thrown JS value is the inductive `Thrown`; a promise outcome
is `FetchOutcome`; exceptions are `Except String` / `Except ApiErrorV`.
-/

namespace Spec2Proof

/-- A process environment: maps a variable name to its value, `none` when the
variable is unset. -/
def Env : Type := String → Option String

/-- JS truthiness of `process.env[key]`-style values: `undefined` and the empty
string are falsy, any other string is truthy. -/
def jsTruthy : Option String → Bool
  | none => false
  | some s => !(s == "")

/-- JS `a || b` on a possibly-undefined string `a` with string default `b`. -/
def jsOr (v : Option String) (w : String) : String :=
  match v with
  | none => w
  | some s => if s == "" then w else s

/-- Embeds `getEnvVar` (src/unnamed/part_000 lines 61-67): returns the
environment value, else the fallback, and throws when both are JS-falsy.
Note the fallback is tested with `!fallback`, so an empty-string fallback
counts as absent. -/
def getEnvVar (env : Env) (key : String) (fallback : Option String) :
    Except String String :=
  let value := env key
  if !(jsTruthy value) && !(jsTruthy fallback) then
    .error ("Environment variable " ++ key ++ " is required but not set")
  else
    .ok (jsOr value (jsOr fallback ""))

/-- JS `String.prototype.toLowerCase` on the ASCII range (the only range the
compared literal "true" needs): map A-Z to a-z characterwise. -/
def jsToLower (s : String) : String :=
  String.mk (s.toList.map fun c =>
    if 'A' ≤ c && c ≤ 'Z' then Char.ofNat (c.toNat + 32) else c)

/-- Embeds `parseBoolean` (src/unnamed/part_000 lines 72-75): falsy input
yields the fallback, otherwise the result is the case-insensitive comparison
with the literal "true". -/
def parseBoolean (value : Option String) (fallback : Bool := false) : Bool :=
  match value with
  | none => fallback
  | some s => if s == "" then fallback else jsToLower s == "true"

/-- Characters treated as whitespace by JS `parseInt` when skipping the
leading segment of its input. -/
def isJsSpace (c : Char) : Bool :=
  c == ' ' || c == '\t' || c == '\n' || c == '\r' || c == '\x0b' || c == '\x0c'

/-- Numeric value of a list of decimal digit characters, most significant
first. -/
def digitsVal (l : List Char) : Nat :=
  l.foldl (fun a c => a * 10 + (c.toNat - '0'.toNat)) 0

/-- Split an optional leading sign character off a character list, returning
the sign as `1` or `-1` together with the remaining characters. -/
def signSplit (l : List Char) : Int × List Char :=
  match l with
  | [] => (1, [])
  | c :: t => if c == '-' then (-1, t) else if c == '+' then (1, t) else (1, c :: t)

/-- Embeds JS `parseInt(s, 10)`: skip leading whitespace, read an optional
sign, then the longest prefix of decimal digits; `none` models `NaN` (no
digits found). -/
def jsParseInt (s : String) : Option Int :=
  let l := s.toList.dropWhile isJsSpace
  let p := signSplit l
  let digits := p.2.takeWhile Char.isDigit
  if digits.isEmpty then none else some (p.1 * (digitsVal digits : Int))

/-- Embeds `parseNumber` (src/unnamed/part_000 lines 80-84): falsy input
yields the fallback; otherwise `parseInt(value, 10)`, with the fallback when
that is `NaN`. -/
def parseNumber (value : Option String) (fallback : Int) : Int :=
  match value with
  | none => fallback
  | some s =>
    if s == "" then fallback
    else
      match jsParseInt s with
      | none => fallback
      | some n => n

/-- Embeds `requiredVars` inside `validateConfig` (src/unnamed/part_000
lines 152-154). -/
def requiredVars : List String := ["REACT_APP_API_BASE_URL"]

/-- Embeds `validateConfig` (src/unnamed/part_000 lines 151-164): filters the
required names whose environment value is falsy and throws an error listing
all of them, joined with ", ". -/
def validateConfig (env : Env) : Except String Unit :=
  let missingVars := requiredVars.filter (fun v => !(jsTruthy (env v)))
  if missingVars.length > 0 then
    .error ("Missing required environment variables: " ++
      String.intercalate ", " missingVars ++ "\n" ++
      "Please check your .env file and ensure all required variables are set.")
  else
    .ok ()

/-- The `app` sub-group of `AppConfig` (src/unnamed/part_000 lines 7-11). -/
structure AppGroup where
  name : String
  version : String
  environment : String
  deriving DecidableEq, Repr

/-- The `api` sub-group of `AppConfig` (src/unnamed/part_000 lines 12-16). -/
structure ApiGroup where
  baseUrl : String
  timeout : Int
  version : String
  deriving DecidableEq, Repr

/-- The optional `auth` sub-group (src/unnamed/part_000 lines 17-21). -/
structure AuthConfig where
  domain : String
  clientId : String
  redirectUri : String
  deriving DecidableEq, Repr

/-- The optional `firebase` sub-group (src/unnamed/part_000 lines 22-29). -/
structure FirebaseConfig where
  apiKey : String
  authDomain : String
  projectId : String
  storageBucket : String
  messagingSenderId : String
  appId : String
  deriving DecidableEq, Repr

/-- The optional `analytics` sub-group (src/unnamed/part_000 lines 30-33). -/
structure AnalyticsConfig where
  googleAnalyticsId : String
  mixpanelToken : String
  deriving DecidableEq, Repr

/-- The `features` sub-group (src/unnamed/part_000 lines 34-38). -/
structure FeaturesConfig where
  newUI : Bool
  betaAccess : Bool
  debugMode : Bool
  deriving DecidableEq, Repr

/-- The optional `assets` sub-group (src/unnamed/part_000 lines 39-42). -/
structure AssetsConfig where
  cdnUrl : String
  assetsUrl : String
  deriving DecidableEq, Repr

/-- The optional `social` sub-group (src/unnamed/part_000 lines 43-47). -/
structure SocialConfig where
  facebookAppId : String
  githubClientId : String
  linkedinClientId : String
  deriving DecidableEq, Repr

/-- The optional `monitoring` sub-group (src/unnamed/part_000 lines 48-51). -/
structure MonitoringConfig where
  sentryDsn : String
  hotjarId : String
  deriving DecidableEq, Repr

/-- The `development` sub-group (src/unnamed/part_000 lines 52-55). -/
structure DevelopmentConfig where
  mockApi : Bool
  logLevel : String
  deriving DecidableEq, Repr

/-- The `AppConfig` interface (src/unnamed/part_000 lines 6-56); optional
sub-groups are `Option`s (`none` = `undefined`). -/
structure AppConfig where
  app : AppGroup
  api : ApiGroup
  auth : Option AuthConfig
  firebase : Option FirebaseConfig
  analytics : Option AnalyticsConfig
  features : FeaturesConfig
  assets : Option AssetsConfig
  social : Option SocialConfig
  monitoring : Option MonitoringConfig
  development : DevelopmentConfig
  deriving DecidableEq, Repr

/-- Embeds the `auth` property initializer of `config` (src/unnamed/part_000
lines 100-104): gated on `REACT_APP_AUTH_DOMAIN` being truthy; internal
fields use `getEnvVar` with no fallback. -/
def authGroup (env : Env) : Except String (Option AuthConfig) :=
  if jsTruthy (env "REACT_APP_AUTH_DOMAIN") then do
    let domain ← getEnvVar env "REACT_APP_AUTH_DOMAIN" none
    let clientId ← getEnvVar env "REACT_APP_CLIENT_ID" none
    let redirectUri ← getEnvVar env "REACT_APP_REDIRECT_URI" none
    pure (some ⟨domain, clientId, redirectUri⟩)
  else
    pure none

/-- Embeds the `firebase` property initializer of `config`
(src/unnamed/part_000 lines 105-112): gated on `REACT_APP_FIREBASE_API_KEY`
being truthy; internal fields use `getEnvVar` with no fallback. -/
def firebaseGroup (env : Env) : Except String (Option FirebaseConfig) :=
  if jsTruthy (env "REACT_APP_FIREBASE_API_KEY") then do
    let apiKey ← getEnvVar env "REACT_APP_FIREBASE_API_KEY" none
    let authDomain ← getEnvVar env "REACT_APP_FIREBASE_AUTH_DOMAIN" none
    let projectId ← getEnvVar env "REACT_APP_FIREBASE_PROJECT_ID" none
    let storageBucket ← getEnvVar env "REACT_APP_FIREBASE_STORAGE_BUCKET" none
    let messagingSenderId ← getEnvVar env "REACT_APP_FIREBASE_MESSAGING_SENDER_ID" none
    let appId ← getEnvVar env "REACT_APP_FIREBASE_APP_ID" none
    pure (some ⟨apiKey, authDomain, projectId, storageBucket, messagingSenderId, appId⟩)
  else
    pure none

/-- Embeds the `analytics` property initializer of `config`
(src/unnamed/part_000 lines 113-116): gated on either variable being truthy;
internal fields use `getEnvVar` with an empty-string fallback. -/
def analyticsGroup (env : Env) : Except String (Option AnalyticsConfig) :=
  if jsTruthy (env "REACT_APP_GOOGLE_ANALYTICS_ID") ||
      jsTruthy (env "REACT_APP_MIXPANEL_TOKEN") then do
    let googleAnalyticsId ← getEnvVar env "REACT_APP_GOOGLE_ANALYTICS_ID" (some "")
    let mixpanelToken ← getEnvVar env "REACT_APP_MIXPANEL_TOKEN" (some "")
    pure (some ⟨googleAnalyticsId, mixpanelToken⟩)
  else
    pure none

/-- Embeds the `assets` property initializer of `config`
(src/unnamed/part_000 lines 122-125). -/
def assetsGroup (env : Env) : Except String (Option AssetsConfig) :=
  if jsTruthy (env "REACT_APP_CDN_URL") || jsTruthy (env "REACT_APP_ASSETS_URL") then do
    let cdnUrl ← getEnvVar env "REACT_APP_CDN_URL" (some "")
    let assetsUrl ← getEnvVar env "REACT_APP_ASSETS_URL" (some "")
    pure (some ⟨cdnUrl, assetsUrl⟩)
  else
    pure none

/-- Embeds the `social` property initializer of `config`
(src/unnamed/part_000 lines 126-130). -/
def socialGroup (env : Env) : Except String (Option SocialConfig) :=
  if jsTruthy (env "REACT_APP_FACEBOOK_APP_ID") ||
      jsTruthy (env "REACT_APP_GITHUB_CLIENT_ID") ||
      jsTruthy (env "REACT_APP_LINKEDIN_CLIENT_ID") then do
    let facebookAppId ← getEnvVar env "REACT_APP_FACEBOOK_APP_ID" (some "")
    let githubClientId ← getEnvVar env "REACT_APP_GITHUB_CLIENT_ID" (some "")
    let linkedinClientId ← getEnvVar env "REACT_APP_LINKEDIN_CLIENT_ID" (some "")
    pure (some ⟨facebookAppId, githubClientId, linkedinClientId⟩)
  else
    pure none

/-- Embeds the `monitoring` property initializer of `config`
(src/unnamed/part_000 lines 131-134). -/
def monitoringGroup (env : Env) : Except String (Option MonitoringConfig) :=
  if jsTruthy (env "REACT_APP_SENTRY_DSN") || jsTruthy (env "REACT_APP_HOTJAR_ID") then do
    let sentryDsn ← getEnvVar env "REACT_APP_SENTRY_DSN" (some "")
    let hotjarId ← getEnvVar env "REACT_APP_HOTJAR_ID" (some "")
    pure (some ⟨sentryDsn, hotjarId⟩)
  else
    pure none

/-- Embeds the construction of the module-level `config` object
(src/unnamed/part_000 lines 89-139), evaluating the property initializers in
source order; the first `getEnvVar` throw aborts the whole construction, as
in JS object-literal evaluation. -/
def buildConfig (env : Env) : Except String AppConfig := do
  let appName ← getEnvVar env "REACT_APP_APP_NAME" (some "React App")
  let appVersion ← getEnvVar env "REACT_APP_VERSION" (some "1.0.0")
  let appEnvironment ← getEnvVar env "REACT_APP_ENVIRONMENT" (some "development")
  let apiBaseUrl ← getEnvVar env "REACT_APP_API_BASE_URL" none
  let apiTimeout := parseNumber (env "REACT_APP_API_TIMEOUT") 10000
  let apiVersion ← getEnvVar env "REACT_APP_API_VERSION" (some "v1")
  let auth ← authGroup env
  let firebase ← firebaseGroup env
  let analytics ← analyticsGroup env
  let features : FeaturesConfig :=
    ⟨parseBoolean (env "REACT_APP_FEATURE_NEW_UI"),
     parseBoolean (env "REACT_APP_FEATURE_BETA_ACCESS"),
     parseBoolean (env "REACT_APP_FEATURE_DEBUG_MODE")⟩
  let assets ← assetsGroup env
  let social ← socialGroup env
  let monitoring ← monitoringGroup env
  let development : DevelopmentConfig :=
    ⟨parseBoolean (env "REACT_APP_MOCK_API"),
     jsOr (env "REACT_APP_LOG_LEVEL") "info"⟩
  pure
    { app := ⟨appName, appVersion, appEnvironment⟩
      api := ⟨apiBaseUrl, apiTimeout, apiVersion⟩
      auth := auth
      firebase := firebase
      analytics := analytics
      features := features
      assets := assets
      social := social
      monitoring := monitoring
      development := development }

/-- JSON values, the decoded form of response bodies. -/
inductive Json where
  | null : Json
  | bool (b : Bool) : Json
  | num (n : Int) : Json
  | str (s : String) : Json
  | arr (l : List Json) : Json
  | obj (l : List (String × Json)) : Json

/-- A JS `Error` value: its `name` and `message` fields. -/
structure JsError where
  name : String
  message : String
  deriving DecidableEq, Repr

/-- The `ApiError` class (src/src/setupProxy.js lines 233-242): status,
statusText and a `data` payload (`Json.null` models JS `null`). -/
structure ApiErrorV where
  status : Nat
  statusText : String
  data : Json

/-- A JS throwable as seen by the client's `catch` block: an `ApiError`
instance, some other `Error` instance, or a non-`Error` value. -/
inductive Thrown where
  | apiErr (e : ApiErrorV) : Thrown
  | jsErr (e : JsError) : Thrown
  | nonError : Thrown

/-- A `fetch` `Response` as the client uses it: status, statusText, and the
outcome of `response.json()` — a decoded value, or the `Error` the body
parser rejects with. -/
structure JsResponse where
  status : Nat
  statusText : String
  jsonBody : Except JsError Json

/-- `response.ok` per the fetch specification: status in the range 200-299. -/
def respOk (r : JsResponse) : Bool :=
  200 ≤ r.status && r.status < 300

/-- Outcome of the awaited `fetch` call: it resolves with a response, or
rejects with a throwable (abort error, transport failure, ...). -/
inductive FetchOutcome where
  | success (r : JsResponse) : FetchOutcome
  | reject (t : Thrown) : FetchOutcome

/-- Embeds the `catch` block of `ApiClient.request` (src/src/setupProxy.js
lines 183-196): re-throw `ApiError` unchanged; an `Error` named `AbortError`
becomes `ApiError(408, 'Request Timeout', null)`; any other `Error` becomes
`ApiError(0, message, null)`; a non-`Error` throwable becomes
`ApiError(0, 'Unknown Error', null)`. -/
def classifyError : Thrown → ApiErrorV
  | .apiErr e => e
  | .jsErr e =>
    if e.name == "AbortError" then ⟨408, "Request Timeout", Json.null⟩
    else ⟨0, e.message, Json.null⟩
  | .nonError => ⟨0, "Unknown Error", Json.null⟩

/-- `await response.json().catch(() => null)` (src/src/setupProxy.js
line 173): the decoded body, or `null` when parsing rejects. -/
def jsonOrNull (body : Except JsError Json) : Json :=
  match body with
  | .ok v => v
  | .error _ => Json.null

/-- Result of one execution of `ApiClient.request`: the value returned or the
`ApiError` thrown, plus whether `clearTimeout(timeoutId)` was executed. -/
structure RequestResult where
  result : Except ApiErrorV Json
  timerCleared : Bool

/-- Embeds the `try`/`catch` body of `ApiClient.request`
(src/src/setupProxy.js lines 158-196), parameterized by the outcome of the
awaited `fetch`. When `fetch` rejects, control jumps to the `catch` block
without reaching `clearTimeout` (line 167); when it resolves, `clearTimeout`
runs, then the non-ok check (lines 169-175), the 204 special case
(lines 178-180), and `response.json()` (line 182), whose rejection is also
handled by the `catch` block. -/
def runRequest (outcome : FetchOutcome) : RequestResult :=
  match outcome with
  | .reject t => ⟨.error (classifyError t), false⟩
  | .success r =>
    if !(respOk r) then
      ⟨.error (classifyError (.apiErr ⟨r.status, r.statusText, jsonOrNull r.jsonBody⟩)), true⟩
    else if r.status == 204 then
      ⟨.ok (Json.obj []), true⟩
    else
      match r.jsonBody with
      | .ok v => ⟨.ok v, true⟩
      | .error e => ⟨.error (classifyError (.jsErr e)), true⟩

/-- The synthetic response the proxy writes: status, `Content-Type` header
and JSON body. -/
structure ProxyErrorResponse where
  status : Nat
  contentType : String
  body : Json

/-- Embeds the proxy's `onError` handler (src/src/setupProxy.js lines 30-41):
writes a 500 JSON response whose `message` is the underlying error message in
development and "Internal Server Error" otherwise. -/
def onError (nodeEnv : String) (errMessage : String) : ProxyErrorResponse :=
  { status := 500
    contentType := "application/json"
    body := Json.obj
      [("error", Json.str "Proxy Error"),
       ("message", Json.str
         (if nodeEnv == "development" then errMessage else "Internal Server Error"))] }

/-- The `ApiConfig` interface of the client (src/unnamed/part_000
lines 105-109 of the second document; headers as an ordered key-value
object). -/
structure ApiConfigC where
  baseURL : String
  timeout : Int
  headers : List (String × String)
  deriving DecidableEq, Repr

/-- JS `Number(v)` for a possibly-undefined string, restricted to integer
literals (the only timeout values any claim touches): `undefined` gives `NaN`
(modelled `none`), a whitespace-only string gives 0, an optionally signed
digit string gives its value, anything else gives `NaN`. -/
def jsNumberInt (v : Option String) : Option Int :=
  match v with
  | none => none
  | some s =>
    let l := (s.toList.dropWhile isJsSpace).reverse.dropWhile isJsSpace |>.reverse
    match l with
    | [] => some 0
    | _ =>
      let p := signSplit l
      if !p.2.isEmpty && p.2.all Char.isDigit then
        some (p.1 * (digitsVal p.2 : Int))
      else none

/-- JS `Number(v) || fb`: both `NaN` and 0 are falsy and yield the default. -/
def jsNumberOr (v : Option String) (fb : Int) : Int :=
  match jsNumberInt v with
  | none => fb
  | some 0 => fb
  | some n => n

/-- Embeds `getApiConfig` (client document lines 112-125): in development the
base URL is the empty string (the proxy handles routing); otherwise it is
`REACT_APP_API_BASE_URL || ''`. The timeout is `Number(...) || 10000`,
modelled for integer-literal timeout values by `jsNumberInt`. -/
def getApiConfig (nodeEnv : String) (env : Env) : ApiConfigC :=
  let isDevelopment := nodeEnv == "development"
  { baseURL := if isDevelopment then "" else jsOr (env "REACT_APP_API_BASE_URL") ""
    timeout := jsNumberOr (env "REACT_APP_API_TIMEOUT") 10000
    headers :=
      [("Content-Type", "application/json"),
       ("X-API-Version", jsOr (env "REACT_APP_API_VERSION") "v1")] }

/-- JS object update `{...obj, key: v}` restricted to the given key: replace
the value at an existing key, else append the pair. -/
def setKey : List (String × String) → String → String → List (String × String)
  | [], k, v => [(k, v)]
  | (k', v') :: t, k, v =>
    if k' == k then (k', v) :: t else (k', v') :: setKey t k v

/-- JS object spread `{...a, ...b}`: the keys of `b` override those of `a`. -/
def mergeObj (a b : List (String × String)) : List (String × String) :=
  b.foldl (fun acc kv => setKey acc kv.1 kv.2) a

/-- Property read `obj[k]` on the key-value object model. -/
def lookupKey (obj : List (String × String)) (k : String) : Option String :=
  (obj.find? (fun kv => kv.1 == k)).map (fun kv => kv.2)

/-- Embeds the header construction of `ApiClient.request` (client document
lines 141-156): defaults spread first, then the caller's per-call overrides,
then — when a stored auth token exists — `Authorization: Bearer <token>` is
spread last. -/
def buildHeaders (defaults overrides : List (String × String))
    (token : Option String) : List (String × String) :=
  let merged := mergeObj defaults overrides
  match token with
  | some t => mergeObj merged [("Authorization", "Bearer " ++ t)]
  | none => merged

/-- Embeds the URL construction of `ApiClient.request` (client document
line 139): plain string concatenation, no slash normalization. -/
def buildUrl (baseURL endpoint : String) : String :=
  baseURL ++ endpoint

/-- An environment in which only the API base URL and the Firebase API key
are set — the scenario of the spec's "Firebase API key only" example. -/
def envFirebaseOnly : Env := fun k =>
  if k == "REACT_APP_API_BASE_URL" then some "http://localhost:5000"
  else if k == "REACT_APP_FIREBASE_API_KEY" then some "test-key"
  else none

/-- An environment in which all six Firebase variables are set. -/
def envFirebaseFull : Env := fun k =>
  if k == "REACT_APP_FIREBASE_API_KEY" then some "fk"
  else if k == "REACT_APP_FIREBASE_AUTH_DOMAIN" then some "fd"
  else if k == "REACT_APP_FIREBASE_PROJECT_ID" then some "fp"
  else if k == "REACT_APP_FIREBASE_STORAGE_BUCKET" then some "fb"
  else if k == "REACT_APP_FIREBASE_MESSAGING_SENDER_ID" then some "fm"
  else if k == "REACT_APP_FIREBASE_APP_ID" then some "fa"
  else none

/-- An environment in which only the Google Analytics id is set. -/
def envGaOnly : Env := fun k =>
  if k == "REACT_APP_GOOGLE_ANALYTICS_ID" then some "UA-1" else none

/-! Helper lemmas about the JS-semantics primitives. -/

lemma jsTruthy_none : jsTruthy none = false := rfl

lemma jsTruthy_some (s : String) : jsTruthy (some s) = !(s == "") := rfl

lemma jsOr_none (w : String) : jsOr none w = w := rfl

lemma jsOr_some (s w : String) : jsOr (some s) w = if s == "" then w else s := rfl

lemma isDigit_not_isJsSpace (c : Char) (h : c.isDigit = true) : isJsSpace c = false := by
  unfold isJsSpace
  simp only [Bool.or_eq_false_iff, beq_eq_false_iff_ne]
  refine ⟨⟨⟨⟨⟨?_, ?_⟩, ?_⟩, ?_⟩, ?_⟩, ?_⟩ <;> rintro rfl <;> exact absurd h (by decide)

lemma isDigit_ne_dash (c : Char) (h : c.isDigit = true) : (c == '-') = false := by
  rw [beq_eq_false_iff_ne]; rintro rfl; exact absurd h (by decide)

lemma isDigit_ne_plus (c : Char) (h : c.isDigit = true) : (c == '+') = false := by
  rw [beq_eq_false_iff_ne]; rintro rfl; exact absurd h (by decide)

lemma signSplit_cons_of_digit (c : Char) (t : List Char) (h : c.isDigit = true) :
    signSplit (c :: t) = (1, c :: t) := by
  simp [signSplit, isDigit_ne_dash c h, isDigit_ne_plus c h]

lemma jsParseInt_all_digits (l : List Char) (hne : l ≠ [])
    (hd : ∀ c ∈ l, c.isDigit = true) :
    jsParseInt (String.mk l) = some ((digitsVal l : Int)) := by
  obtain ⟨c, t, rfl⟩ : ∃ c t, l = c :: t := by
    cases l with
    | nil => exact absurd rfl hne
    | cons c t => exact ⟨c, t, rfl⟩
  have hc : c.isDigit = true := hd c (by simp)
  have h1 : (String.mk (c :: t)).toList = c :: t := rfl
  have h2 : (c :: t).dropWhile isJsSpace = c :: t := by
    rw [List.dropWhile_cons, isDigit_not_isJsSpace c hc]
    simp
  have h4 : (c :: t).takeWhile Char.isDigit = c :: t :=
    List.takeWhile_eq_self_iff.mpr hd
  simp [jsParseInt, h1, h2, signSplit_cons_of_digit c t hc, h4]

lemma lookupKey_setKey (o : List (String × String)) (k v : String) :
    lookupKey (setKey o k v) k = some v := by
  induction o with
  | nil => simp [setKey, lookupKey]
  | cons hd tl ih =>
    obtain ⟨k', v'⟩ := hd
    by_cases h : k' == k
    · simp [setKey, h, lookupKey]
    · simp only [setKey, h, Bool.false_eq_true, if_false]
      simpa [lookupKey, List.find?, h] using ih

/-- C1 (counterexample): with only `REACT_APP_API_BASE_URL` and
`REACT_APP_FIREBASE_API_KEY` set, constructing the configuration does NOT
yield a firebase sub-group with empty-string fields — it raises an error
naming `REACT_APP_FIREBASE_AUTH_DOMAIN`, because the gated group's internal
fields call `getEnvVar` with no (truthy) fallback. -/
theorem firebase_only_env_raises :
    buildConfig envFirebaseOnly =
      .error "Environment variable REACT_APP_FIREBASE_AUTH_DOMAIN is required but not set" ∧
    firebaseGroup envFirebaseOnly =
      .error "Environment variable REACT_APP_FIREBASE_AUTH_DOMAIN is required but not set" :=
  ⟨rfl, rfl⟩

/-- C1 (amended): a gated optional sub-group is absent when its triggering
variable is falsy; when the trigger is set, every internal variable must be
truthy or construction raises a missing-variable error (an untriggered
internal field does not default to the empty string) — shown for the
firebase group (no fallback) and the analytics group (empty-string fallback,
which `getEnvVar` also treats as absent); when all internal variables are
set, the sub-group is defined with exactly those values. -/
theorem gated_subgroup_internal_fields_required :
    ∀ env : Env,
      (jsTruthy (env "REACT_APP_FIREBASE_API_KEY") = false → firebaseGroup env = .ok none) ∧
      (jsTruthy (env "REACT_APP_FIREBASE_API_KEY") = true →
        jsTruthy (env "REACT_APP_FIREBASE_AUTH_DOMAIN") = false →
        firebaseGroup env =
          .error "Environment variable REACT_APP_FIREBASE_AUTH_DOMAIN is required but not set") ∧
      (∀ v1 v2 v3 v4 v5 v6 : String,
        env "REACT_APP_FIREBASE_API_KEY" = some v1 → v1 ≠ "" →
        env "REACT_APP_FIREBASE_AUTH_DOMAIN" = some v2 → v2 ≠ "" →
        env "REACT_APP_FIREBASE_PROJECT_ID" = some v3 → v3 ≠ "" →
        env "REACT_APP_FIREBASE_STORAGE_BUCKET" = some v4 → v4 ≠ "" →
        env "REACT_APP_FIREBASE_MESSAGING_SENDER_ID" = some v5 → v5 ≠ "" →
        env "REACT_APP_FIREBASE_APP_ID" = some v6 → v6 ≠ "" →
        firebaseGroup env = .ok (some ⟨v1, v2, v3, v4, v5, v6⟩)) ∧
      (jsTruthy (env "REACT_APP_GOOGLE_ANALYTICS_ID") = true →
        jsTruthy (env "REACT_APP_MIXPANEL_TOKEN") = false →
        analyticsGroup env =
          .error "Environment variable REACT_APP_MIXPANEL_TOKEN is required but not set") := by
  intro env
  refine ⟨?_, ?_, ?_, ?_⟩
  · intro h
    simp only [firebaseGroup, h, Bool.false_eq_true, if_false]
    rfl
  · intro h1 h2
    simp [firebaseGroup, getEnvVar, h1, h2, jsTruthy_none, Bind.bind, Except.bind]
  · intro v1 v2 v3 v4 v5 v6 e1 n1 e2 n2 e3 n3 e4 n4 e5 n5 e6 n6
    simp [firebaseGroup, getEnvVar, e1, e2, e3, e4, e5, e6,
      jsTruthy_some, jsTruthy_none, jsOr_some, jsOr_none,
      beq_eq_false_iff_ne.mpr n1, beq_eq_false_iff_ne.mpr n2, beq_eq_false_iff_ne.mpr n3,
      beq_eq_false_iff_ne.mpr n4, beq_eq_false_iff_ne.mpr n5, beq_eq_false_iff_ne.mpr n6,
      Bind.bind, Except.bind, pure, Except.pure]
  · intro h1 h2
    simp [analyticsGroup, getEnvVar, h1, h2, jsTruthy_some, jsTruthy_none,
      Bind.bind, Except.bind]

/-- C1 (witness): the amended theorem applied to concrete environments — a
fully populated firebase group is constructed, and an analytics group
triggered by the Google Analytics id alone raises for the Mixpanel token. -/
theorem gated_subgroup_internal_fields_required_witness :
    firebaseGroup envFirebaseFull = .ok (some ⟨"fk", "fd", "fp", "fb", "fm", "fa"⟩) ∧
    analyticsGroup envGaOnly =
      .error "Environment variable REACT_APP_MIXPANEL_TOKEN is required but not set" :=
  ⟨(gated_subgroup_internal_fields_required envFirebaseFull).2.2.1
      "fk" "fd" "fp" "fb" "fm" "fa"
      rfl (by decide) rfl (by decide) rfl (by decide)
      rfl (by decide) rfl (by decide) rfl (by decide),
   (gated_subgroup_internal_fields_required envGaOnly).2.2.2
      (by decide) (by decide)⟩

/-- C2 (counterexample): when the awaited `fetch` rejects with a transport
error, the execution of `request` ends with the timeout timer still armed —
`clearTimeout` is on the success path only, and the `catch` block never
disarms it, so this exit path does leave a dangling timer. -/
theorem transport_failure_leaves_timer_armed :
    (runRequest (.reject
      (.jsErr ⟨"TypeError", "NetworkError when attempting to fetch resource"⟩))).timerCleared
      = false :=
  rfl

/-- C2 (amended): the timeout timer is disarmed exactly on the exit paths
where `fetch` resolves with a response (decoded body, 204, or non-success
status — including when decoding the body later fails); on every path where
`fetch` itself rejects (abort, transport failure, or other throw), control
jumps to `catch` without executing `clearTimeout`. -/
theorem timer_cleared_iff_fetch_resolved :
    ∀ (r : JsResponse) (t : Thrown),
      (runRequest (.success r)).timerCleared = true ∧
      (runRequest (.reject t)).timerCleared = false := by
  intro r t
  refine ⟨?_, rfl⟩
  rcases r with ⟨st, sx, body⟩
  cases body <;> simp only [runRequest] <;> split <;> first | rfl | (split <;> rfl)

/-- C3: every failure of `request` is classified in priority order — an
`ApiError` is re-thrown unchanged; an `Error` named `AbortError` (timeout
expiry included) becomes `ApiError(408, Request Timeout, null)`; any other
`Error` becomes `ApiError(0, its message, null)`; a non-`Error` throwable
becomes `ApiError(0, Unknown Error, null)`; and a body-decoding failure on
the success path goes through the same classification. -/
theorem request_error_classification :
    (∀ e : ApiErrorV, (runRequest (.reject (.apiErr e))).result = .error e) ∧
    (∀ m : String, (runRequest (.reject (.jsErr ⟨"AbortError", m⟩))).result =
      .error ⟨408, "Request Timeout", Json.null⟩) ∧
    (∀ n m : String, n ≠ "AbortError" →
      (runRequest (.reject (.jsErr ⟨n, m⟩))).result = .error ⟨0, m, Json.null⟩) ∧
    ((runRequest (.reject .nonError)).result = .error ⟨0, "Unknown Error", Json.null⟩) ∧
    (∀ (r : JsResponse) (e : JsError), respOk r = true → (r.status == 204) = false →
      r.jsonBody = .error e →
      (runRequest (.success r)).result =
        .error (if e.name == "AbortError" then ⟨408, "Request Timeout", Json.null⟩
          else ⟨0, e.message, Json.null⟩)) := by
  refine ⟨fun e => rfl, fun m => rfl, ?_, rfl, ?_⟩
  · intro n m h
    simp [runRequest, classifyError, beq_eq_false_iff_ne.mpr h]
  · intro r e h1 h2 h3
    simp [runRequest, classifyError, h1, h2, h3]

/-- C3 (witness): the classification applied to a concrete transport error
and to a concrete JSON-decoding failure of an OK response. -/
theorem request_error_classification_witness :
    (runRequest (.reject (.jsErr ⟨"TypeError", "Failed to fetch"⟩))).result =
      .error ⟨0, "Failed to fetch", Json.null⟩ ∧
    (runRequest (.success ⟨200, "OK",
        .error ⟨"SyntaxError", "Unexpected end of JSON input"⟩⟩)).result =
      .error ⟨0, "Unexpected end of JSON input", Json.null⟩ :=
  ⟨request_error_classification.2.2.1 "TypeError" "Failed to fetch" (by decide),
   (request_error_classification.2.2.2.2
      ⟨200, "OK", .error ⟨"SyntaxError", "Unexpected end of JSON input"⟩⟩
      ⟨"SyntaxError", "Unexpected end of JSON input"⟩
      (by decide) (by decide) rfl).trans rfl⟩

/-- C4: a response with a non-success status makes `request` fail with
`ApiError(status, statusText, data)` where `data` is the parsed JSON error
body, or `null` when the body is absent or unparsable. -/
theorem request_non_ok_status_error (r : JsResponse) (h : respOk r = false) :
    (runRequest (.success r)).result =
      .error ⟨r.status, r.statusText, jsonOrNull r.jsonBody⟩ ∧
    (∀ v, r.jsonBody = .ok v → jsonOrNull r.jsonBody = v) ∧
    (∀ e, r.jsonBody = .error e → jsonOrNull r.jsonBody = Json.null) := by
  refine ⟨?_, ?_, ?_⟩
  · simp [runRequest, classifyError, h]
  · intro v hv; simp [jsonOrNull, hv]
  · intro e he; simp [jsonOrNull, he]

/-- C4 (witness): a 404 response whose body decodes to
`{"message": "not found"}` fails with exactly that payload. -/
theorem request_non_ok_status_error_witness :
    (runRequest (.success ⟨404, "Not Found",
        .ok (Json.obj [("message", Json.str "not found")])⟩)).result =
      .error ⟨404, "Not Found", Json.obj [("message", Json.str "not found")]⟩ :=
  (request_non_ok_status_error
    ⟨404, "Not Found", .ok (Json.obj [("message", Json.str "not found")])⟩ (by decide)).1

/-- C5: the proxy's `onError` handler always produces a synthetic HTTP 500
JSON response whose body is an `error`/`message` object; the message is the
underlying error message exactly in development mode and the generic
"Internal Server Error" otherwise (the handler is a total function of the
error, so the failure never escapes as an unhandled exception). -/
theorem proxy_onError_synthetic_500 :
    ∀ (nodeEnv errMessage : String),
      (onError nodeEnv errMessage).status = 500 ∧
      (onError nodeEnv errMessage).contentType = "application/json" ∧
      (nodeEnv = "development" →
        (onError nodeEnv errMessage).body =
          Json.obj [("error", Json.str "Proxy Error"), ("message", Json.str errMessage)]) ∧
      (nodeEnv ≠ "development" →
        (onError nodeEnv errMessage).body =
          Json.obj [("error", Json.str "Proxy Error"),
            ("message", Json.str "Internal Server Error")]) := by
  intro nodeEnv m
  refine ⟨rfl, rfl, ?_, ?_⟩
  · rintro rfl; rfl
  · intro h; simp [onError, beq_eq_false_iff_ne.mpr h]

/-- C5 (witness): the handler evaluated in development and in production for
a concrete backend failure. -/
theorem proxy_onError_synthetic_500_witness :
    (onError "development" "ECONNREFUSED").body =
      Json.obj [("error", Json.str "Proxy Error"), ("message", Json.str "ECONNREFUSED")] ∧
    (onError "production" "ECONNREFUSED").body =
      Json.obj [("error", Json.str "Proxy Error"),
        ("message", Json.str "Internal Server Error")] :=
  ⟨(proxy_onError_synthetic_500 "development" "ECONNREFUSED").2.2.1 rfl,
   (proxy_onError_synthetic_500 "production" "ECONNREFUSED").2.2.2 (by decide)⟩

/-- C6 (counterexample): with fallback `true`, the set non-"true" string "no"
yields `false` (the comparison result), not the fallback; and absent input
yields the fallback `true` even though no value case-insensitively equal to
"true" is set — refuting both halves of the claim as quantified over every
fallback. -/
theorem parseBoolean_ignores_fallback_when_set :
    parseBoolean (some "no") true = false ∧ parseBoolean none true = true :=
  ⟨by decide, rfl⟩

/-- C6 (amended): `parseBoolean` returns the fallback exactly for absent or
empty input; for any set non-empty value it returns whether the value
lowercased equals "true" — so "TRUE", "true" and "True" yield `true`, and
any other non-empty string yields `false` regardless of the fallback. -/
theorem parseBoolean_amended_spec (fb : Bool) :
    parseBoolean none fb = fb ∧
    parseBoolean (some "") fb = fb ∧
    (∀ s, s ≠ "" → parseBoolean (some s) fb = (jsToLower s == "true")) ∧
    parseBoolean (some "TRUE") fb = true ∧
    parseBoolean (some "true") fb = true ∧
    parseBoolean (some "True") fb = true := by
  refine ⟨rfl, rfl, ?_, rfl, rfl, rfl⟩
  intro s h
  simp [parseBoolean, beq_eq_false_iff_ne.mpr h]

/-- C6 (witness): the amended characterization evaluated at the set
non-"true" string "xyz" with fallback `true`. -/
theorem parseBoolean_amended_spec_witness :
    parseBoolean (some "xyz") true = false :=
  ((parseBoolean_amended_spec true).2.2.1 "xyz" (by decide)).trans (by decide)

/-- C7: `validateConfig` checks the fixed list `requiredVars` (exactly the
API base URL); when that variable is falsy it fails with the message listing
exactly `REACT_APP_API_BASE_URL` (the joined enumeration of all missing
names), and when every required variable is set it returns without error. -/
theorem validateConfig_spec :
    ∀ env : Env,
      requiredVars = ["REACT_APP_API_BASE_URL"] ∧
      (jsTruthy (env "REACT_APP_API_BASE_URL") = false →
        validateConfig env = .error ("Missing required environment variables: REACT_APP_API_BASE_URL\n" ++
          "Please check your .env file and ensure all required variables are set.")) ∧
      (jsTruthy (env "REACT_APP_API_BASE_URL") = true → validateConfig env = .ok ()) := by
  intro env
  refine ⟨rfl, ?_, ?_⟩
  · intro h
    simp [validateConfig, requiredVars, h, String.intercalate]
    rfl
  · intro h
    simp [validateConfig, requiredVars, h, String.intercalate]

/-- C7 (witness): validation fails on the empty environment listing exactly
the base URL, and passes when the base URL is set. -/
theorem validateConfig_spec_witness :
    validateConfig (fun _ => none) =
      .error ("Missing required environment variables: REACT_APP_API_BASE_URL\n" ++
        "Please check your .env file and ensure all required variables are set.") ∧
    validateConfig (fun _ => some "http://localhost:5000") = .ok () :=
  ⟨(validateConfig_spec (fun _ => none)).2.1 (by decide),
   (validateConfig_spec (fun _ => some "http://localhost:5000")).2.2 (by decide)⟩

/-- C8: `parseNumber` is total (it is a plain function — no input makes it
throw); absent or empty input yields the fallback, any string on which
`parseInt` finds no digits yields the fallback, any string on which
`parseInt` finds a signed digit prefix yields that integer, and a pure
digit string yields exactly its base-10 value. -/
theorem parseNumber_spec (f : Int) :
    parseNumber none f = f ∧
    parseNumber (some "") f = f ∧
    (∀ s, jsParseInt s = none → parseNumber (some s) f = f) ∧
    (∀ s n, jsParseInt s = some n → parseNumber (some s) f = n) ∧
    (∀ l : List Char, l ≠ [] → (∀ c ∈ l, c.isDigit = true) →
      parseNumber (some (String.mk l)) f = (digitsVal l : Int)) := by
  refine ⟨rfl, rfl, ?_, ?_, ?_⟩
  · intro s h
    by_cases hs : s == "" <;> simp [parseNumber, hs, h]
  · intro s n h
    by_cases hs : s == ""
    · rw [eq_of_beq hs] at h
      rw [show jsParseInt "" = none from rfl] at h
      exact Option.noConfusion h
    · simp [parseNumber, hs, h]
  · intro l hne hd
    have hp := jsParseInt_all_digits l hne hd
    have hs : (String.mk l == "") = false := by
      rw [beq_eq_false_iff_ne]
      intro he
      exact hne (by simpa using congrArg String.toList he)
    simp [parseNumber, hs, hp]

/-- C8 (witness): the non-numeric string "abc" yields the fallback and the
digit string "42" yields 42. -/
theorem parseNumber_spec_witness :
    parseNumber (some "abc") 7 = 7 ∧
    parseNumber (some (String.mk ['4', '2'])) 7 = 42 :=
  ⟨(parseNumber_spec 7).2.2.1 "abc" (by decide),
   ((parseNumber_spec 7).2.2.2.2 ['4', '2'] (by decide) (by decide)).trans (by decide)⟩

/-- C9: whenever a stored auth token is present, the final `Authorization`
header of the built request is the bearer token derived from the store, for
every choice of default headers and caller-supplied per-call overrides —
including overrides that set their own `Authorization` value — because the
token entry is spread after the overrides. -/
theorem stored_token_wins_authorization
    (defaults overrides : List (String × String)) (t : String) :
    lookupKey (buildHeaders defaults overrides (some t)) "Authorization" =
      some ("Bearer " ++ t) := by
  show lookupKey (mergeObj (mergeObj defaults overrides)
    [("Authorization", "Bearer " ++ t)]) "Authorization" = _
  simp only [mergeObj, List.foldl_cons, List.foldl_nil]
  exact lookupKey_setKey _ _ _

/-- C10: in development the client's configured base URL is the empty string
regardless of the environment, so the final URL is the endpoint verbatim;
outside development the base URL is `REACT_APP_API_BASE_URL || ''`, hence
the empty string when that variable is unset. -/
theorem development_baseURL_empty :
    ∀ (env : Env) (endpoint : String) (nodeEnv : String),
      (getApiConfig "development" env).baseURL = "" ∧
      buildUrl (getApiConfig "development" env).baseURL endpoint = endpoint ∧
      (nodeEnv ≠ "development" →
        (getApiConfig nodeEnv env).baseURL = jsOr (env "REACT_APP_API_BASE_URL") "") ∧
      (nodeEnv ≠ "development" → env "REACT_APP_API_BASE_URL" = none →
        (getApiConfig nodeEnv env).baseURL = "") := by
  intro env endpoint nodeEnv
  refine ⟨rfl, ?_, ?_, ?_⟩
  · show "" ++ endpoint = endpoint
    simp
  · intro h
    simp [getApiConfig, beq_eq_false_iff_ne.mpr h]
  · intro h h2
    simp [getApiConfig, beq_eq_false_iff_ne.mpr h, h2, jsOr]

/-- C10 (witness): with no environment variables set, a production client
falls back to the empty base URL, and a development client's URL for
`/api/users` is `/api/users` itself. -/
theorem development_baseURL_empty_witness :
    (getApiConfig "production" (fun _ => none)).baseURL = "" ∧
    buildUrl (getApiConfig "development" (fun _ => none)).baseURL "/api/users" = "/api/users" :=
  ⟨(development_baseURL_empty (fun _ => none) "/api/users" "production").2.2.2
      (by decide) rfl,
   (development_baseURL_empty (fun _ => none) "/api/users" "production").2.1⟩

end Spec2Proof
